import Mathlib

set_option maxHeartbeats 1000000

/-
  Verification development for the expr2fn compiler (src/compiler.ts).

  The compiler walks an expression AST and generates the text of a JavaScript
  function body (statements accumulated in `state.body`, temp-variable names in
  `state.vars`), finally assembled by `new Function` into a callable taking one
  `ctx` argument.

  Shallow embedding used here: the generated JavaScript fragments are
  represented structurally instead of as concatenated text.  Each string-building
  helper of the source (`if_`, `assign`, `not`, `member`) becomes a constructor
  of a small statement/expression IR (`Stmt`/`Expr`), and the statement list the
  source accumulates by string concatenation becomes a `List Stmt`.  A separate
  evaluator (`runProg`) gives the IR the semantics JavaScript gives the
  generated text: `var`-declared temps start as `undefined`, truthiness follows
  the JavaScript falsy set, `a&&b` returns `a` when `a` is falsy, member access
  on `null`/`undefined` throws, and the injected `ensureSafeFn` guard throws on
  the `Function` constructor.  JavaScript numbers are modelled over `Int`
  (plus an explicit `nan` value); no claim exercises fractional arithmetic.
  Where the source splices a sub-expression's text twice (the callee in
  `callee&&callee.call(...)`), the IR evaluator also evaluates it twice.

  The one textual phenomenon that cannot be abstracted away is string-literal
  rendering: the source emits `'${value}'` with no escaping, so a value
  containing a single quote yields malformed code and `new Function` throws a
  SyntaxError at compile time.  This is modelled by `Expr.strLit` carrying the
  raw text placed between the quotes together with a well-formedness scan
  (`progWF`, standing in for `new Function`'s parse) that `compile` applies to
  the assembled program.
-/

namespace EF

/-- Runtime values of the evaluated expression language: the JavaScript values
reachable by compiled units.  Functions are identified by a numeric id whose
behaviour an `FnTable` supplies; `fnCtor` is the distinguished `Function`
constructor that `ensureSafeFn` rejects.  `nan` is kept separate from `num`
so that the falsy set can be modelled exactly. -/
inductive Val where
  | undefined
  | null
  | bool (b : Bool)
  | num (n : Int)
  | nan
  | str (s : String)
  | obj (fields : List (String × Val))
  | arr (elements : List Val)
  | fn (id : Nat)
  | fnCtor
deriving Repr

/-- JavaScript truthiness: `false`, `0`, the empty string, `null`, `undefined`
and `NaN` are falsy; every object, array and function is truthy. -/
def truthy : Val → Bool
  | .undefined => false
  | .null => false
  | .bool b => b
  | .num n => n != 0
  | .nan => false
  | .str s => s != ""
  | .obj _ => true
  | .arr _ => true
  | .fn _ => true
  | .fnCtor => true

/-- Test for `typeof v === 'function'` in the value model. -/
def isFunctionV : Val → Bool
  | .fn _ => true
  | .fnCtor => true
  | _ => false

/-- Identity test against the `Function` constructor (`v === Function`). -/
def isFnCtor : Val → Bool
  | .fnCtor => true
  | _ => false

/-- Test for `null` or `undefined` (the values whose member access throws). -/
def nullish : Val → Bool
  | .null => true
  | .undefined => true
  | _ => false

/-- Expression fragments of the generated code.  Each constructor records one
shape of expression text that `Compiler.recurse` can return: a temp variable
name `vN`, the parameter `ctx`, a literal rendering, a parenthesised binary or
unary application, the `!(e)` form built by `not`, the two member forms built
by `member`, the guarded call `callee&&callee.call(receiver,args)`, and array
and object literals.  `undefLit` is the token `undefined`, which is also what
an unrecognized AST node contributes to the output text (see `recurse`).
Object keys are either a bare identifier token or a spliced expression token
(`Sum.inl name` / `Sum.inr keyExpr`), mirroring the two branches of the
ObjectExpression case. -/
inductive Expr where
  | var (n : Nat)
  | ctxE
  | numLit (n : Int)
  | boolLit (b : Bool)
  | nullLit
  | undefLit
  | strLit (raw : String)
  | binaryE (op : String) (left right : Expr)
  | unaryE (op : String) (argument : Expr)
  | notE (e : Expr)
  | memberDot (object : Expr) (name : String)
  | memberComputed (object key : Expr)
  | andCall (callee receiver : Expr) (args : List Expr)
  | arrayE (elements : List (Option Expr))
  | objectE (properties : List ((String ⊕ Expr) × Expr))
deriving Repr

/-- Statement fragments of the generated function body: a bare expression
statement (`e;`), the final `return e;`, an assignment `vN=e;`, the guarded
block `if(test){consequent}` built by `if_`, and the injected guard invocation
`ensureSafeFn(callee);`. -/
inductive Stmt where
  | exprStmt (e : Expr)
  | ret (e : Expr)
  | assignS (v : Nat) (e : Expr)
  | ifStmt (test : Expr) (consequent : Stmt)
  | ensureSafeFnS (callee : Expr)
deriving Repr

/-- The AST consumed by the compiler (the `AST`/`TYPE` shapes imported from the
parser module).  `member` keeps `property` as a node and a `computed` flag as
in the source; non-computed access reads `property.name` without recursing.
Array elements may be holes (`none`, a falsy element in the source's
`if (ast.elements[i])` test).  Literals are split by value kind, covering
`value: number | string | boolean | null`.  `unknownNode` stands for a node
whose `type` tag matches no `case` of the `switch` — representable at runtime
because the tag is plain data — which the source's `switch` (having no
`default`) silently maps to the JavaScript value `undefined`. -/
inductive AST where
  | program (body : List AST)
  | conditional (test consequent alternate : AST)
  | logical (operator : String) (left right : AST)
  | binary (operator : String) (left right : AST)
  | unary (operator : String) (argument : AST)
  | call (callee : AST) (arguments : List AST)
  | member (object property : AST) (computed : Bool)
  | array (elements : List (Option AST))
  | object (properties : List (AST × AST))
  | ident (name : String)
  | litNum (n : Int)
  | litBool (b : Bool)
  | litNull
  | litStr (s : String)
  | unknownNode
deriving Repr

/-- Compilation state, mirroring `this.state`: the temp-name counter `id`, the
declared temp list `vars`, and the ordered statement list `body`. -/
structure CState where
  id : Nat
  vars : List Nat
  body : List Stmt
deriving Repr

/-- Append one statement to the body (`this.state.body.push(...)`). -/
def pushStmt (s : CState) (st : Stmt) : CState :=
  { s with body := s.body ++ [st] }

/-- Mirrors `variableDeclaration`: returns the fresh temp name `v⟨id⟩`,
increments the counter and records the declaration. -/
def variableDeclaration (s : CState) : CState × Nat :=
  ({ s with id := s.id + 1, vars := s.vars ++ [s.id] }, s.id)

/-- Mirrors `if_`: the text `if(test){consequent}`. -/
def if_ (test : Expr) (consequent : Stmt) : Stmt :=
  .ifStmt test consequent

/-- Mirrors `not`: the text `!(e)`. -/
def not_ (e : Expr) : Expr :=
  .notE e

/-- Mirrors `assign`: the text `left=right;`. -/
def assign (left : Nat) (right : Expr) : Stmt :=
  .assignS left right

/-- Mirrors `member`: `(left)[right]` when computed, `(left).right` when not. -/
def member_ (left : Expr) (right : String ⊕ Expr) : Expr :=
  match right with
  | .inl name => .memberDot left name
  | .inr key => .memberComputed left key

/-- Mirrors the source's `(ast.property as any).name` read on the non-computed
member path: an `Identifier` node yields its name; any other node has no
`name` field, so JavaScript yields `undefined`, which string-concatenates into
the generated text as the property name `undefined`. -/
def nodeName : AST → String
  | .ident n => n
  | _ => "undefined"

mutual

/-- Mirrors `Compiler.recurse`.  State is passed explicitly instead of through
`this.state`; the returned `Expr` is the expression text the source returns,
and the returned `Option Expr` models the `setCallContext` side channel: the
MemberExpression case reports its lowered object (`some left`), every other
case reports nothing, and the CallExpression case reads the report of its
callee (`callContext` defaulting to `ctx`).  Sub-expression recursion happens
at the same points as in the source, so statements pushed while lowering an
operand land in the body before the statement that consumes the operand's
expression — in particular the Conditional and Logical cases push the
branch's or right operand's sub-statements before (hence outside) the `if`
they emit.  An `unknownNode` falls through every case: the source's `switch`
has no `default`, `recurse` returns the JavaScript value `undefined`, and its
concatenation into the output renders the token `undefined` (`undefLit`). -/
def recurse : AST → CState → CState × Expr × Option Expr
  | .program body, s => recurseProgramBody body s
  | .conditional t c a, s =>
      let p0 := variableDeclaration s
      let p1 := variableDeclaration p0.1
      let r0 := recurse t p1.1
      let s2 := pushStmt r0.1 (assign p1.2 r0.2.1)
      let r1 := recurse c s2
      let s3 := pushStmt r1.1 (if_ (.var p1.2) (assign p0.2 r1.2.1))
      let r2 := recurse a s3
      let s4 := pushStmt r2.1 (if_ (not_ (.var p1.2)) (assign p0.2 r2.2.1))
      (s4, .var p0.2, none)
  | .logical op l r, s =>
      let p0 := variableDeclaration s
      let r0 := recurse l p0.1
      let s1 := pushStmt r0.1 (assign p0.2 r0.2.1)
      let r1 := recurse r s1
      let s2 := pushStmt r1.1
        (if_ (if op == "&&" then .var p0.2 else not_ (.var p0.2))
          (assign p0.2 r1.2.1))
      (s2, .var p0.2, none)
  | .binary op l r, s =>
      let r0 := recurse l s
      let r1 := recurse r r0.1
      (r1.1, .binaryE op r0.2.1 r1.2.1, none)
  | .unary op a, s =>
      let r0 := recurse a s
      (r0.1, .unaryE op r0.2.1, none)
  | .call callee args, s =>
      let r0 := recurse callee s
      let callContext := (r0.2.2).getD Expr.ctxE
      let r1 := recurseArgs args r0.1
      let s2 := pushStmt r1.1 (.ensureSafeFnS r0.2.1)
      (s2, .andCall r0.2.1 callContext r1.2, none)
  | .member obj prop computed, s =>
      let p0 := variableDeclaration s
      let r0 := recurse obj p0.1
      if computed then
        let r1 := recurse prop r0.1
        let s2 := pushStmt r1.1
          (if_ r0.2.1 (assign p0.2 (member_ r0.2.1 (.inr r1.2.1))))
        (s2, .var p0.2, some r0.2.1)
      else
        let s2 := pushStmt r0.1
          (if_ r0.2.1 (assign p0.2 (member_ r0.2.1 (.inl (nodeName prop)))))
        (s2, .var p0.2, some r0.2.1)
  | .array elements, s =>
      let r0 := recurseElems elements s
      (r0.1, .arrayE r0.2, none)
  | .object properties, s =>
      let r0 := recurseProps properties s
      (r0.1, .objectE r0.2, none)
  | .ident name, s =>
      let p0 := variableDeclaration s
      let s1 := pushStmt p0.1
        (if_ .ctxE (assign p0.2 (member_ .ctxE (.inl name))))
      (s1, .var p0.2, none)
  | .litNum n, s => (s, .numLit n, none)
  | .litBool b, s => (s, .boolLit b, none)
  | .litNull, s => (s, .nullLit, none)
  | .litStr str, s => (s, .strLit str, none)
  | .unknownNode, s => (s, .undefLit, none)
termination_by ast _ => sizeOf ast

/-- Mirrors the Program case's loop: every statement but the last is pushed as
a bare expression statement, the last as `return e;`.  The case ends in
`break`, so `recurse` falls off the end and returns JavaScript `undefined`
(the expression component is never consumed: `compile` discards it).  The
source would fault on an empty program body (indexing `body[-1]`); the parser
never produces one, and the empty case here pushes nothing. -/
def recurseProgramBody : List AST → CState → CState × Expr × Option Expr
  | [], s => (s, .undefLit, none)
  | [last], s =>
      let r0 := recurse last s
      (pushStmt r0.1 (.ret r0.2.1), .undefLit, none)
  | a :: rest, s =>
      let r0 := recurse a s
      recurseProgramBody rest (pushStmt r0.1 (.exprStmt r0.2.1))
termination_by l _ => sizeOf l

/-- Mirrors `ast.arguments.map(arg => this.recurse(arg))`: lowers the argument
list left to right, threading the state. -/
def recurseArgs : List AST → CState → CState × List Expr
  | [], s => (s, [])
  | a :: rest, s =>
      let r0 := recurse a s
      let r1 := recurseArgs rest r0.1
      (r1.1, r0.2.1 :: r1.2)
termination_by l _ => sizeOf l

/-- Mirrors the ArrayExpression element loop: present elements are lowered,
holes (`none`, falsy in the source's `if (ast.elements[i])`) are kept as
holes and render as the empty slot between commas. -/
def recurseElems : List (Option AST) → CState → CState × List (Option Expr)
  | [], s => (s, [])
  | none :: rest, s =>
      let r1 := recurseElems rest s
      (r1.1, none :: r1.2)
  | some a :: rest, s =>
      let r0 := recurse a s
      let r1 := recurseElems rest r0.1
      (r1.1, some r0.2.1 :: r1.2)
termination_by l _ => sizeOf l

/-- Mirrors the ObjectExpression property loop: an `Identifier` key renders as
a bare key token, any other key is lowered as an expression and its text
spliced into key position; the value is lowered after the key. -/
def recurseProps : List (AST × AST) → CState → CState × List ((String ⊕ Expr) × Expr)
  | [], s => (s, [])
  | (k, v) :: rest, s =>
      match k with
      | .ident name =>
          let r0 := recurse v s
          let r1 := recurseProps rest r0.1
          (r1.1, (Sum.inl name, r0.2.1) :: r1.2)
      | other =>
          let rk := recurse other s
          let r0 := recurse v rk.1
          let r1 := recurseProps rest r0.1
          (r1.1, (Sum.inr rk.2.1, r0.2.1) :: r1.2)
termination_by l _ => sizeOf l

end

/-- Behaviour table for function values: the result a function id produces
from a receiver (`this`) and an argument list.  Host functions are pure; the
evaluator records every invocation in a trace, which is how side effects are
observed. -/
abbrev FnTable := Nat → Val → List Val → Val

/-- Chronological record of performed call invocations: function id, receiver,
arguments. -/
abbrev Trace := List (Nat × Val × List Val)

/-- The temp-variable store of one evaluation of the compiled unit.  The most
recent binding wins; a never-assigned `var`-declared temp reads as
`undefined`. -/
abbrev Store := List (Nat × Val)

/-- Evaluation-time faults: the throw inside `ensureSafeFn`, and the TypeError
JavaScript raises on dereferencing `null`/`undefined` or calling a
non-function. -/
inductive Err where
  | safeFnError
  | typeError
deriving Repr, DecidableEq

/-- Read a temp variable; unassigned temps are `undefined` (JavaScript `var`
hoisting). -/
def getSlot (st : Store) (n : Nat) : Val :=
  (st.lookup n).getD .undefined

/-- Assign a temp variable. -/
def setSlot (st : Store) (n : Nat) (v : Val) : Store :=
  (n, v) :: st

/-- Last binding of a field name in an object's field list (later duplicate
keys of an object literal win), or `none` when absent. -/
def lookupLast : List (String × Val) → String → Option Val
  | [], _ => none
  | (k, v) :: rest, name =>
      match lookupLast rest name with
      | some w => some w
      | none => if k == name then some v else none

mutual

/-- JavaScript ToString, as used for computed property keys and string
concatenation.  Objects stringify to the generic object tag, arrays to their
elements joined by commas with `null`/`undefined` elements blank. -/
def toKeyString : Val → String
  | .undefined => "undefined"
  | .null => "null"
  | .bool b => if b then "true" else "false"
  | .num n => toString n
  | .nan => "NaN"
  | .str s => s
  | .obj _ => "[object Object]"
  | .arr xs => joinKeys xs
  | .fn _ => "function"
  | .fnCtor => "function"
termination_by v => sizeOf v

/-- Comma-join of array elements under ToString. -/
def joinKeys : List Val → String
  | [] => ""
  | [x] =>
      (match x with
        | .undefined => ""
        | .null => ""
        | v => toKeyString v)
  | x :: rest =>
      (match x with
        | .undefined => ""
        | .null => ""
        | v => toKeyString v) ++ "," ++ joinKeys rest
termination_by l => sizeOf l

end

/-- Property read on a value: object fields by (last-wins) lookup, array
`length` and index reads, string `length`; any other read yields `undefined`.
Reads through `null`/`undefined` never reach this function — the evaluator
raises a TypeError first. -/
def getField (v : Val) (name : String) : Val :=
  match v with
  | .obj fields => (lookupLast fields name).getD .undefined
  | .arr xs =>
      if name == "length" then .num xs.length
      else match name.toNat? with
        | some i => (xs.get? i).getD .undefined
        | none => .undefined
  | .str s => if name == "length" then .num s.length else .undefined
  | _ => .undefined

/-- JavaScript ToNumber restricted to the integer value model: `none` stands
for NaN.  Strings parse as integers (empty string is `0`); objects, arrays
and functions are approximated as NaN, adequate for every claim (none
performs arithmetic on containers). -/
def toNumber : Val → Option Int
  | .num n => some n
  | .nan => none
  | .bool b => some (if b then 1 else 0)
  | .null => some 0
  | .undefined => none
  | .str s => if s == "" then some 0 else s.toInt?
  | _ => none

/-- Strict equality `===` on the value model.  `NaN` is unequal to everything
including itself.  Object/array/function operands use structural comparison of
ids for functions and are conservatively unequal for containers (JavaScript
compares container references, which a value model cannot distinguish; no
claim compares containers). -/
def strictEq : Val → Val → Bool
  | .undefined, .undefined => true
  | .null, .null => true
  | .bool a, .bool b => a == b
  | .num a, .num b => a == b
  | .str a, .str b => a == b
  | .fn a, .fn b => a == b
  | .fnCtor, .fnCtor => true
  | _, _ => false

/-- Loose equality `==`: `null` and `undefined` are mutually equal, same-kind
operands compare strictly, and mixed primitive operands compare after numeric
coercion. -/
def looseEq (a b : Val) : Bool :=
  match a, b with
  | .null, .undefined => true
  | .undefined, .null => true
  | .null, .null => true
  | .undefined, .undefined => true
  | _, _ =>
      if strictEq a b then true
      else match toNumber a, toNumber b with
        | some x, some y => x == y
        | _, _ => false

/-- Semantics of the binary operator tokens the compiler splices between its
parenthesised operands.  `+` follows the string-concatenation rule; the other
arithmetic operators act on the integer model (`/` truncates and `x/0` is
approximated as NaN — no claim divides); comparisons are numeric or
lexicographic on strings; unknown tokens yield `undefined`. -/
def jsBinary (op : String) (a b : Val) : Val :=
  if op == "+" then
    match a, b with
    | .str sa, _ => .str (sa ++ toKeyString b)
    | _, .str sb => .str (toKeyString a ++ sb)
    | _, _ =>
        match toNumber a, toNumber b with
        | some x, some y => .num (x + y)
        | _, _ => .nan
  else if op == "-" then
    match toNumber a, toNumber b with
    | some x, some y => .num (x - y)
    | _, _ => .nan
  else if op == "*" then
    match toNumber a, toNumber b with
    | some x, some y => .num (x * y)
    | _, _ => .nan
  else if op == "/" then
    match toNumber a, toNumber b with
    | some x, some y => if y == 0 then .nan else .num (Int.tdiv x y)
    | _, _ => .nan
  else if op == "%" then
    match toNumber a, toNumber b with
    | some x, some y => if y == 0 then .nan else .num (Int.emod x y)
    | _, _ => .nan
  else if op == "<" then
    match a, b with
    | .str sa, .str sb => .bool (sa < sb)
    | _, _ =>
        match toNumber a, toNumber b with
        | some x, some y => .bool (x < y)
        | _, _ => .bool false
  else if op == ">" then
    match a, b with
    | .str sa, .str sb => .bool (sb < sa)
    | _, _ =>
        match toNumber a, toNumber b with
        | some x, some y => .bool (y < x)
        | _, _ => .bool false
  else if op == "<=" then
    match a, b with
    | .str sa, .str sb => .bool (sa ≤ sb)
    | _, _ =>
        match toNumber a, toNumber b with
        | some x, some y => .bool (x ≤ y)
        | _, _ => .bool false
  else if op == ">=" then
    match a, b with
    | .str sa, .str sb => .bool (sb ≤ sa)
    | _, _ =>
        match toNumber a, toNumber b with
        | some x, some y => .bool (y ≤ x)
        | _, _ => .bool false
  else if op == "===" then .bool (strictEq a b)
  else if op == "!==" then .bool (!strictEq a b)
  else if op == "==" then .bool (looseEq a b)
  else if op == "!=" then .bool (!looseEq a b)
  else .undefined

/-- Semantics of the unary operator tokens spliced before a parenthesised
operand. -/
def jsUnary (op : String) (a : Val) : Val :=
  if op == "!" then .bool (!truthy a)
  else if op == "-" then
    match toNumber a with
    | some x => .num (-x)
    | none => .nan
  else if op == "+" then
    match toNumber a with
    | some x => .num x
    | none => .nan
  else .undefined

/-- Mirrors `Compiler.ensureSafeFn` (the guard injected into every compiled
unit): throws exactly when the callee is a function and is identical to the
`Function` constructor. -/
def ensureSafeFn (callee : Val) : Except Err Unit :=
  if isFunctionV callee && isFnCtor callee then .error .safeFnError else .ok ()

/-- Characters that terminate or escape inside a single-quoted JavaScript
string literal: the quote itself, the backslash, and line terminators.  The
source emits string literals with no escaping, so a raw text containing one
of these yields code that does not parse back to the same string. -/
def strOkB (s : String) : Bool :=
  s.data.all (fun c =>
    !(c == Char.ofNat 39 || c == Char.ofNat 92 || c == Char.ofNat 10 || c == Char.ofNat 13))

/-- The property key a spliced expression token denotes when it appears in
key position of an object literal.  Literal tokens denote their value's
string form (a quoted string key denotes the string, a numeric key its
decimal form); a temp-variable token is an identifier token and denotes its
own spelling (the variable is NOT read — a faithful rendering of the source,
which splices the generated text into key position); any other expression
text is not a valid key token and the generated code does not parse. -/
def keySpell : Expr → Option String
  | .strLit raw => if strOkB raw then some raw else none
  | .numLit n => some (toString n)
  | .boolLit b => some (if b then "true" else "false")
  | .nullLit => some "null"
  | .undefLit => some "undefined"
  | .var n => some ("v" ++ toString n)
  | _ => none

mutual

/-- Evaluates one generated expression fragment under a function table, the
`ctx` argument and the current temp store, threading the call trace (also
through faults, so that a fault's trace still shows which calls ran).
Expression evaluation never writes the store — assignments are statements.
The `andCall` case follows the generated text `callee&&callee.call(recv,args)`
literally: the callee expression is evaluated once for the `&&` test (a falsy
callee is itself the result) and, when truthy, evaluated again as the call
target, after which the receiver and the arguments are evaluated left to
right and the invocation is recorded in the trace.  Invoking a truthy
non-function is a TypeError.  Invoking the `Function` constructor is
unreachable in any compiled unit (the emitted `ensureSafeFn` statement throws
first, and evaluation is deterministic); the model returns `undefined` on
that dead branch. -/
def evalExpr (tbl : FnTable) (ctxv : Val) (st : Store) : Expr → Trace → Trace × Except Err Val
  | .var n, tr => (tr, .ok (getSlot st n))
  | .ctxE, tr => (tr, .ok ctxv)
  | .numLit n, tr => (tr, .ok (.num n))
  | .boolLit b, tr => (tr, .ok (.bool b))
  | .nullLit, tr => (tr, .ok .null)
  | .undefLit, tr => (tr, .ok .undefined)
  | .strLit raw, tr => (tr, .ok (.str raw))
  | .binaryE op l r, tr =>
      match evalExpr tbl ctxv st l tr with
      | (tr1, .error e) => (tr1, .error e)
      | (tr1, .ok a) =>
        match evalExpr tbl ctxv st r tr1 with
        | (tr2, .error e) => (tr2, .error e)
        | (tr2, .ok b) => (tr2, .ok (jsBinary op a b))
  | .unaryE op e, tr =>
      match evalExpr tbl ctxv st e tr with
      | (tr1, .error er) => (tr1, .error er)
      | (tr1, .ok a) => (tr1, .ok (jsUnary op a))
  | .notE e, tr =>
      match evalExpr tbl ctxv st e tr with
      | (tr1, .error er) => (tr1, .error er)
      | (tr1, .ok a) => (tr1, .ok (.bool (!truthy a)))
  | .memberDot o name, tr =>
      match evalExpr tbl ctxv st o tr with
      | (tr1, .error e) => (tr1, .error e)
      | (tr1, .ok ov) =>
        if nullish ov then (tr1, .error .typeError)
        else (tr1, .ok (getField ov name))
  | .memberComputed o k, tr =>
      match evalExpr tbl ctxv st o tr with
      | (tr1, .error e) => (tr1, .error e)
      | (tr1, .ok ov) =>
        match evalExpr tbl ctxv st k tr1 with
        | (tr2, .error e) => (tr2, .error e)
        | (tr2, .ok kv) =>
          if nullish ov then (tr2, .error .typeError)
          else (tr2, .ok (getField ov (toKeyString kv)))
  | .andCall ce recvE args, tr =>
      match evalExpr tbl ctxv st ce tr with
      | (tr1, .error e) => (tr1, .error e)
      | (tr1, .ok cv) =>
        if truthy cv then
          match evalExpr tbl ctxv st ce tr1 with
          | (tr2, .error e) => (tr2, .error e)
          | (tr2, .ok cv2) =>
            match evalExpr tbl ctxv st recvE tr2 with
            | (tr3, .error e) => (tr3, .error e)
            | (tr3, .ok rv) =>
              match evalList tbl ctxv st args tr3 with
              | (tr4, .error e) => (tr4, .error e)
              | (tr4, .ok avs) =>
                match cv2 with
                | .fn i => (tr4 ++ [(i, rv, avs)], .ok (tbl i rv avs))
                | .fnCtor => (tr4, .ok .undefined)
                | _ => (tr4, .error .typeError)
        else (tr1, .ok cv)
  | .arrayE elems, tr =>
      match evalElems tbl ctxv st elems tr with
      | (tr1, .error e) => (tr1, .error e)
      | (tr1, .ok vs) => (tr1, .ok (.arr vs))
  | .objectE props, tr =>
      match evalProps tbl ctxv st props tr with
      | (tr1, .error e) => (tr1, .error e)
      | (tr1, .ok kvs) => (tr1, .ok (.obj kvs))
termination_by e _ => sizeOf e

/-- Left-to-right evaluation of an expression list (call arguments). -/
def evalList (tbl : FnTable) (ctxv : Val) (st : Store) : List Expr → Trace → Trace × Except Err (List Val)
  | [], tr => (tr, .ok [])
  | e :: rest, tr =>
      match evalExpr tbl ctxv st e tr with
      | (tr1, .error er) => (tr1, .error er)
      | (tr1, .ok v) =>
        match evalList tbl ctxv st rest tr1 with
        | (tr2, .error er) => (tr2, .error er)
        | (tr2, .ok vs) => (tr2, .ok (v :: vs))
termination_by l _ => sizeOf l

/-- Left-to-right evaluation of array-literal elements; a hole reads as
`undefined` (sparse-array read semantics). -/
def evalElems (tbl : FnTable) (ctxv : Val) (st : Store) : List (Option Expr) → Trace → Trace × Except Err (List Val)
  | [], tr => (tr, .ok [])
  | none :: rest, tr =>
      match evalElems tbl ctxv st rest tr with
      | (tr1, .error er) => (tr1, .error er)
      | (tr1, .ok vs) => (tr1, .ok (Val.undefined :: vs))
  | some e :: rest, tr =>
      match evalExpr tbl ctxv st e tr with
      | (tr1, .error er) => (tr1, .error er)
      | (tr1, .ok v) =>
        match evalElems tbl ctxv st rest tr1 with
        | (tr2, .error er) => (tr2, .error er)
        | (tr2, .ok vs) => (tr2, .ok (v :: vs))
termination_by l _ => sizeOf l

/-- Left-to-right evaluation of object-literal property values.  A spliced
key token contributes the key its text denotes (`keySpell`); `compile`'s
well-formedness scan has already rejected programs whose key tokens do not
parse, so the fallback key of that dead branch is the empty string. -/
def evalProps (tbl : FnTable) (ctxv : Val) (st : Store) : List ((String ⊕ Expr) × Expr) → Trace → Trace × Except Err (List (String × Val))
  | [], tr => (tr, .ok [])
  | (k, e) :: rest, tr =>
      match evalExpr tbl ctxv st e tr with
      | (tr1, .error er) => (tr1, .error er)
      | (tr1, .ok v) =>
        match evalProps tbl ctxv st rest tr1 with
        | (tr2, .error er) => (tr2, .error er)
        | (tr2, .ok kvs) =>
          (tr2, .ok (((match k with
            | .inl name => name
            | .inr keyE => (keySpell keyE).getD ""), v) :: kvs))
termination_by l _ => sizeOf l

end

/-- Executes one generated statement.  The third component is `none` when
execution falls through to the next statement, and `some r` when it
terminates the function body: `some (.ok v)` for `return v;` and
`some (.error e)` for a throw.  The `if(test){consequent}` statement runs its
consequent only under a truthy test; the `ensureSafeFn(callee);` statement
evaluates its callee and applies the guard. -/
def execStmt (tbl : FnTable) (ctxv : Val) : Stmt → Store → Trace → Store × Trace × Option (Except Err Val)
  | .exprStmt e, st, tr =>
      match evalExpr tbl ctxv st e tr with
      | (tr1, .error er) => (st, tr1, some (.error er))
      | (tr1, .ok _) => (st, tr1, none)
  | .ret e, st, tr =>
      match evalExpr tbl ctxv st e tr with
      | (tr1, .error er) => (st, tr1, some (.error er))
      | (tr1, .ok v) => (st, tr1, some (.ok v))
  | .assignS n e, st, tr =>
      match evalExpr tbl ctxv st e tr with
      | (tr1, .error er) => (st, tr1, some (.error er))
      | (tr1, .ok v) => (setSlot st n v, tr1, none)
  | .ifStmt t b, st, tr =>
      match evalExpr tbl ctxv st t tr with
      | (tr1, .error er) => (st, tr1, some (.error er))
      | (tr1, .ok v) =>
        if truthy v then execStmt tbl ctxv b st tr1 else (st, tr1, none)
  | .ensureSafeFnS e, st, tr =>
      match evalExpr tbl ctxv st e tr with
      | (tr1, .error er) => (st, tr1, some (.error er))
      | (tr1, .ok v) =>
        match ensureSafeFn v with
        | .error er => (st, tr1, some (.error er))
        | .ok _ => (st, tr1, none)

/-- Executes the statement list in order, stopping at the first return or
throw. -/
def execStmts (tbl : FnTable) (ctxv : Val) : List Stmt → Store → Trace → Store × Trace × Option (Except Err Val)
  | [], st, tr => (st, tr, none)
  | s :: rest, st, tr =>
      match execStmt tbl ctxv s st tr with
      | (st1, tr1, some r) => (st1, tr1, some r)
      | (st1, tr1, none) => execStmts tbl ctxv rest st1 tr1

/-- The compiled unit: the declared temp names and the generated body, as
assembled by `compile` from the final compiler state.  (In the source these
are joined into the text `return function(ctx){var ...;...}` and turned into
a callable by `new Function`, which also closes the unit over its private
`ensureSafeFn` guard; `runProg` plays the role of that callable.) -/
structure Prog where
  vars : List Nat
  body : List Stmt
deriving Repr

/-- Calls the compiled unit on a context: runs the body on an empty store and
empty trace; falling off the end of a JavaScript function body returns
`undefined`. -/
def runProg (p : Prog) (tbl : FnTable) (ctxv : Val) : Except Err Val × Trace :=
  match execStmts tbl ctxv p.body [] [] with
  | (_, tr, some r) => (r, tr)
  | (_, tr, none) => (.ok .undefined, tr)

mutual

/-- Parse check of one expression fragment, standing in for `new Function`'s
parse of the concatenated text: every string literal must survive the
unescaped single-quoted rendering (`strOkB`) and every spliced object key
must be a valid key token (`keySpell`). -/
def wfE : Expr → Bool
  | .var _ => true
  | .ctxE => true
  | .numLit _ => true
  | .boolLit _ => true
  | .nullLit => true
  | .undefLit => true
  | .strLit raw => strOkB raw
  | .binaryE _ l r => wfE l && wfE r
  | .unaryE _ e => wfE e
  | .notE e => wfE e
  | .memberDot o _ => wfE o
  | .memberComputed o k => wfE o && wfE k
  | .andCall ce recvE args => wfE ce && wfE recvE && wfEs args
  | .arrayE elems => wfElems elems
  | .objectE props => wfProps props
termination_by e => sizeOf e

/-- Parse check of an expression list. -/
def wfEs : List Expr → Bool
  | [] => true
  | e :: rest => wfE e && wfEs rest
termination_by l => sizeOf l

/-- Parse check of array-literal elements (holes are fine). -/
def wfElems : List (Option Expr) → Bool
  | [] => true
  | none :: rest => wfElems rest
  | some e :: rest => wfE e && wfElems rest
termination_by l => sizeOf l

/-- Parse check of object-literal properties: spliced key tokens must spell a
key. -/
def wfProps : List ((String ⊕ Expr) × Expr) → Bool
  | [] => true
  | (k, v) :: rest =>
      (match k with
        | .inl _ => true
        | .inr keyE => (keySpell keyE).isSome && wfE keyE) && wfE v && wfProps rest
termination_by l => sizeOf l

end

/-- Parse check of one statement. -/
def wfS : Stmt → Bool
  | .exprStmt e => wfE e
  | .ret e => wfE e
  | .assignS _ e => wfE e
  | .ifStmt t b => wfE t && wfS b
  | .ensureSafeFnS e => wfE e

/-- Parse check of a statement list. -/
def wfStmts : List Stmt → Bool
  | [] => true
  | s :: rest => wfS s && wfStmts rest

/-- Parse check of the assembled program text. -/
def progWF (p : Prog) : Bool :=
  wfStmts p.body

/-- Compile-time fault: `new Function` rejects the assembled text.  The only
way the compiler produces unparsable text is an unescaped string literal or
object key (see `progWF`). -/
inductive CompileError where
  | syntaxError
deriving Repr, DecidableEq

/-- Mirrors `Compiler.compile`: starts from fresh state, recurses over the
AST (discarding the returned expression — the Program case has already pushed
the `return` statement), assembles the function text from the declared temps
and the body, and hands it to `new Function` (modelled as the `progWF` parse
check).  On success the result is the reusable compiled unit. -/
def compile (ast : AST) : Except CompileError Prog :=
  let s0 : CState := { id := 0, vars := [], body := [] }
  let r := recurse ast s0
  let p : Prog := { vars := r.1.vars, body := r.1.body }
  if progWF p then .ok p else .error .syntaxError

/-- Compiles an AST and, when compilation succeeds, calls the compiled unit
on the given context under the given function table. -/
def compileRun (ast : AST) (tbl : FnTable) (ctxv : Val) : Except CompileError (Except Err Val × Trace) :=
  (compile ast).map (fun p => runProg p tbl ctxv)

/-- Truthiness on each value constructor, as rewrite rules that leave a
symbolic `truthy v` untouched for hypotheses to rewrite. -/
theorem truthy_undefined : truthy .undefined = false := rfl

/-- Truthiness of `null`. -/
theorem truthy_null : truthy .null = false := rfl

/-- Truthiness of a boolean. -/
theorem truthy_bool (b : Bool) : truthy (.bool b) = b := rfl

/-- Truthiness of a number. -/
theorem truthy_num (n : Int) : truthy (.num n) = (n != 0) := rfl

/-- Truthiness of `NaN`. -/
theorem truthy_nan : truthy .nan = false := rfl

/-- Truthiness of a string. -/
theorem truthy_str (s : String) : truthy (.str s) = (s != "") := rfl

/-- Truthiness of an object. -/
theorem truthy_obj (fs : List (String × Val)) : truthy (.obj fs) = true := rfl

/-- Truthiness of an array. -/
theorem truthy_arr (xs : List Val) : truthy (.arr xs) = true := rfl

/-- Truthiness of a function value. -/
theorem truthy_fn (i : Nat) : truthy (.fn i) = true := rfl

/-- Truthiness of the `Function` constructor. -/
theorem truthy_fnCtor : truthy .fnCtor = true := rfl

/-- Nullishness of an object (never nullish). -/
theorem nullish_obj (fs : List (String × Val)) : nullish (.obj fs) = false := rfl

/-- A plain function value is not the `Function` constructor. -/
theorem isFnCtor_fn (i : Nat) : isFnCtor (.fn i) = false := rfl

/-- The `Function` constructor is itself. -/
theorem isFnCtor_fnCtor : isFnCtor .fnCtor = true := rfl

/-- A plain function value has function type. -/
theorem isFunctionV_fn (i : Nat) : isFunctionV (.fn i) = true := rfl

/-- The `Function` constructor has function type. -/
theorem isFunctionV_fnCtor : isFunctionV .fnCtor = true := rfl

/-- The guard passes any value that is not the `Function` constructor. -/
theorem ensureSafeFn_not_ctor (v : Val) (h : isFnCtor v = false) : ensureSafeFn v = .ok () := by
  simp [ensureSafeFn, h]

/-- A function table whose every function returns `undefined`; used to close
counterexamples and witnesses. -/
def tbl0 : FnTable := fun _ _ _ => Val.undefined

/-- The AST of the program `a && f()`: a LogicalExpression whose right
operand is a call, the spec's own test shape for short-circuit evaluation. -/
def c1ast : AST := .program [.logical "&&" (.ident "a") (.call (.ident "f") [])]

/-- The AST of the program `a ? 1 : f()`: a ConditionalExpression whose
alternate branch contains a call. -/
def c2ast : AST := .program [.conditional (.ident "a") (.litNum 1) (.call (.ident "f") [])]

/-- The AST of the program `a ? f() : g()`: a ConditionalExpression with a
tracked call in each branch. -/
def c2sel : AST := .program [.conditional (.ident "a") (.call (.ident "f") []) (.call (.ident "g") [])]

/-- Context for `c2sel`: `a` bound to a test value, `f` and `g` to the
tracked functions 1 and 2. -/
def ctxFG (av : Val) : Val := Val.obj [("a", av), ("f", .fn 1), ("g", .fn 2)]

/-- The AST of the program `f()`: a CallExpression on a bare identifier. -/
def callFast : AST := .program [.call (.ident "f") []]

/-- The AST of the program `a.b.c`: the spec's member-chain shape. -/
def c4ast : AST := .program [.member (.member (.ident "a") (.ident "b") false) (.ident "c") false]

/-- The AST of the program `a.b`. -/
def abAst : AST := .program [.member (.ident "a") (.ident "b") false]

/-- The AST of the program `a.length`. -/
def alenAst : AST := .program [.member (.ident "a") (.ident "length") false]

/-- The AST of a program whose single node has an unrecognized kind. -/
def c8ast : AST := .program [.unknownNode]

/-- The single-quote character as a one-character string. -/
def sq : String := String.mk [Char.ofNat 39]

/-- The double-quote character as a one-character string. -/
def dq : String := String.mk [Char.ofNat 34]

/-- A string value with an embedded single quote. -/
def badStr : String := "it" ++ sq ++ "s"

/-- C1, counterexample: the claim says that with a falsy left operand none of
the right operand's evaluation steps execute, including the statements
emitted by lowering its sub-expressions.  On the compiled `a && f()` with
context `a = false`, `f = Function`, the claim predicts an undisturbed
`false` result; the compiled unit instead throws the forbidden-call-target
fault, because the callee resolution and the `ensureSafeFn` guard statement
of the right operand were emitted before (outside) the short-circuit `if`
and therefore execute unconditionally. -/
theorem c1_counterexample :
    compileRun c1ast tbl0 (Val.obj [("a", .bool false), ("f", .fnCtor)]) =
      .ok (.error .safeFnError, []) := by
  simp [compileRun, compile, c1ast, recurse, recurseProgramBody, recurseArgs,
    variableDeclaration, pushStmt, assign, if_, not_, member_, progWF, wfStmts, wfS, wfE,
    wfEs, runProg, execStmts, execStmt, evalExpr, evalList, getSlot, setSlot, List.lookup,
    getField, lookupLast, truthy_obj, truthy_bool, truthy_fnCtor, nullish_obj, ensureSafeFn,
    isFunctionV_fnCtor, isFnCtor_fnCtor, Except.map]

/-- C1, amended: for the compiled `a && f()`, when the left operand is falsy
the call invocation itself does not execute (the result is the left value and
the call trace is empty), but the statements emitted by lowering the right
operand's sub-expressions — callee resolution and the `ensureSafeFn` guard —
still execute on every evaluation: a skipped right operand whose callee is
the `Function` constructor still faults. -/
theorem c1_amended (av fv : Val) (tbl : FnTable)
    (h1 : truthy av = false) (h2 : isFnCtor fv = false) :
    compileRun c1ast tbl (Val.obj [("a", av), ("f", fv)]) = .ok (.ok av, []) ∧
    compileRun c1ast tbl (Val.obj [("a", av), ("f", .fnCtor)]) =
      .ok (.error .safeFnError, []) := by
  simp [compileRun, compile, c1ast, recurse, recurseProgramBody, recurseArgs,
    variableDeclaration, pushStmt, assign, if_, not_, member_, progWF, wfStmts, wfS, wfE,
    wfEs, runProg, execStmts, execStmt, evalExpr, evalList, getSlot, setSlot, List.lookup,
    getField, lookupLast, truthy_obj, truthy_fnCtor, nullish_obj, ensureSafeFn,
    isFunctionV_fnCtor, isFnCtor_fnCtor, Except.map, h1, h2]

/-- C1, witness: the amended theorem instantiated at a concrete falsy left
value and a concrete non-constructor callee. -/
theorem c1_amended_witness :
    truthy (Val.num 0) = false ∧ isFnCtor (Val.fn 5) = false ∧
    (compileRun c1ast tbl0 (Val.obj [("a", Val.num 0), ("f", Val.fn 5)]) =
        .ok (.ok (Val.num 0), []) ∧
      compileRun c1ast tbl0 (Val.obj [("a", Val.num 0), ("f", Val.fnCtor)]) =
        .ok (.error .safeFnError, [])) :=
  ⟨by decide, by decide, c1_amended (Val.num 0) (Val.fn 5) tbl0 (by decide) (by decide)⟩

/-- C2, counterexample: the claim says only the selected branch's guarded
statements execute.  On the compiled `a ? 1 : f()` with context `a = true`,
`f = Function`, the selected branch is the consequent `1`, so the claim
predicts the result `1`; the compiled unit instead throws the
forbidden-call-target fault, because the unselected alternate's callee
resolution and `ensureSafeFn` guard were emitted outside the branch `if`
blocks and execute on every evaluation. -/
theorem c2_counterexample :
    compileRun c2ast tbl0 (Val.obj [("a", .bool true), ("f", .fnCtor)]) =
      .ok (.error .safeFnError, []) := by
  simp [compileRun, compile, c2ast, recurse, recurseProgramBody, recurseArgs,
    variableDeclaration, pushStmt, assign, if_, not_, member_, progWF, wfStmts, wfS, wfE,
    wfEs, runProg, execStmts, execStmt, evalExpr, evalList, getSlot, setSlot, List.lookup,
    getField, lookupLast, truthy_obj, truthy_bool, truthy_fnCtor, nullish_obj, ensureSafeFn,
    isFunctionV_fnCtor, isFnCtor_fnCtor, Except.map]

/-- C2, amended: for the compiled `a ? f() : g()`, only the selected branch's
final assignment — and hence only the selected branch's call invocation —
executes: under a truthy test only `f` is invoked, under a falsy test only
`g`.  The unselected branch's sub-lowering statements (callee resolution and
`ensureSafeFn` guard) do execute: on `a ? 1 : f()` with a truthy test and
`f = Function` the unit faults even though the alternate is unselected. -/
theorem c2_amended (av : Val) (tbl : FnTable) :
    (truthy av = true →
      compileRun c2sel tbl (ctxFG av) =
        .ok (.ok (tbl 1 (ctxFG av) []), [(1, ctxFG av, [])])) ∧
    (truthy av = false →
      compileRun c2sel tbl (ctxFG av) =
        .ok (.ok (tbl 2 (ctxFG av) []), [(2, ctxFG av, [])])) ∧
    (truthy av = true →
      compileRun c2ast tbl (Val.obj [("a", av), ("f", .fnCtor)]) =
        .ok (.error .safeFnError, [])) := by
  refine ⟨fun h => ?_, fun h => ?_, fun h => ?_⟩ <;>
    simp [compileRun, compile, c2sel, c2ast, ctxFG, recurse, recurseProgramBody, recurseArgs,
      variableDeclaration, pushStmt, assign, if_, not_, member_, progWF, wfStmts, wfS, wfE,
      wfEs, runProg, execStmts, execStmt, evalExpr, evalList, getSlot, setSlot, List.lookup,
      getField, lookupLast, truthy_obj, truthy_fn, truthy_bool, truthy_fnCtor, nullish_obj,
      ensureSafeFn, isFunctionV_fn, isFnCtor_fn, isFunctionV_fnCtor, isFnCtor_fnCtor,
      Except.map, h]

/-- C2, witness: the amended theorem instantiated at a truthy and at a falsy
test value. -/
theorem c2_amended_witness :
    truthy (Val.bool true) = true ∧ truthy (Val.bool false) = false ∧
    compileRun c2sel tbl0 (ctxFG (Val.bool true)) =
      .ok (.ok (tbl0 1 (ctxFG (Val.bool true)) []), [(1, ctxFG (Val.bool true), [])]) ∧
    compileRun c2sel tbl0 (ctxFG (Val.bool false)) =
      .ok (.ok (tbl0 2 (ctxFG (Val.bool false)) []), [(2, ctxFG (Val.bool false), [])]) ∧
    compileRun c2ast tbl0 (Val.obj [("a", Val.bool true), ("f", Val.fnCtor)]) =
      .ok (.error .safeFnError, []) :=
  ⟨by decide, by decide,
    (c2_amended (Val.bool true) tbl0).1 (by decide),
    (c2_amended (Val.bool false) tbl0).2.1 (by decide),
    (c2_amended (Val.bool true) tbl0).2.2 (by decide)⟩

/-- C3: the guard injected into every compiled unit passes every callee value
that is not the `Function` constructor and throws exactly on the `Function`
constructor; end to end, the compiled `f()` with `f` bound to the `Function`
constructor faults with the forbidden-call-target error before any call is
performed (the trace at the fault is empty), while with `f` bound to an
ordinary function the guard has no effect and the call proceeds. -/
theorem c3_guard (v : Val) (i : Nat) (tbl : FnTable) (h : isFnCtor v = false) :
    ensureSafeFn v = .ok () ∧
    ensureSafeFn .fnCtor = .error .safeFnError ∧
    compileRun callFast tbl (Val.obj [("f", .fnCtor)]) = .ok (.error .safeFnError, []) ∧
    compileRun callFast tbl (Val.obj [("f", .fn i)]) =
      .ok (.ok (tbl i (Val.obj [("f", .fn i)]) []), [(i, Val.obj [("f", .fn i)], [])]) := by
  refine ⟨ensureSafeFn_not_ctor v h, rfl, ?_, ?_⟩ <;>
    simp [compileRun, compile, callFast, recurse, recurseProgramBody, recurseArgs,
      variableDeclaration, pushStmt, assign, if_, member_, progWF, wfStmts, wfS, wfE,
      wfEs, runProg, execStmts, execStmt, evalExpr, evalList, getSlot, setSlot, List.lookup,
      getField, lookupLast, truthy_obj, truthy_fn, truthy_fnCtor, nullish_obj, ensureSafeFn,
      isFunctionV_fn, isFnCtor_fn, isFunctionV_fnCtor, isFnCtor_fnCtor, Except.map]

/-- C3, witness: the guard theorem instantiated at a non-constructor callee
value and a concrete function id. -/
theorem c3_guard_witness :
    isFnCtor Val.null = false ∧
    (ensureSafeFn Val.null = .ok () ∧
      ensureSafeFn .fnCtor = .error .safeFnError ∧
      compileRun callFast tbl0 (Val.obj [("f", .fnCtor)]) = .ok (.error .safeFnError, []) ∧
      compileRun callFast tbl0 (Val.obj [("f", .fn 3)]) =
        .ok (.ok (tbl0 3 (Val.obj [("f", .fn 3)]) []), [(3, Val.obj [("f", .fn 3)], [])])) :=
  ⟨by decide, c3_guard Val.null 3 tbl0 (by decide)⟩

/-- C4: the compiled `a.b.c` returns `undefined` without faulting on context
`a = null`, returns `7` on context `a.b.c = 7`, and — because every member
dereference is guarded — a `null` or `undefined` value at any point of the
chain (the context itself, `a`, or `a.b`) short-circuits the whole access to
`undefined`. -/
theorem c4_member_chain (u : Val) (tbl : FnTable) (h : u = Val.null ∨ u = Val.undefined) :
    compileRun c4ast tbl (Val.obj [("a", .null)]) = .ok (.ok .undefined, []) ∧
    compileRun c4ast tbl (Val.obj [("a", .obj [("b", .obj [("c", .num 7)])])]) =
      .ok (.ok (.num 7), []) ∧
    compileRun c4ast tbl u = .ok (.ok .undefined, []) ∧
    compileRun c4ast tbl (Val.obj [("a", u)]) = .ok (.ok .undefined, []) ∧
    compileRun c4ast tbl (Val.obj [("a", .obj [("b", u)])]) = .ok (.ok .undefined, []) := by
  rcases h with rfl | rfl <;>
    simp [compileRun, compile, c4ast, recurse, recurseProgramBody, variableDeclaration,
      pushStmt, assign, if_, member_, nodeName, progWF, wfStmts, wfS, wfE, runProg,
      execStmts, execStmt, evalExpr, getSlot, setSlot, List.lookup, getField,
      lookupLast, truthy_obj, truthy_null, truthy_undefined, nullish_obj, Except.map]

/-- C4, witness: the member-chain theorem instantiated at `u = null`. -/
theorem c4_member_chain_witness :
    (Val.null = Val.null ∨ Val.null = Val.undefined) ∧
    (compileRun c4ast tbl0 (Val.obj [("a", .null)]) = .ok (.ok .undefined, []) ∧
      compileRun c4ast tbl0 (Val.obj [("a", .obj [("b", .obj [("c", .num 7)])])]) =
        .ok (.ok (.num 7), []) ∧
      compileRun c4ast tbl0 Val.null = .ok (.ok .undefined, []) ∧
      compileRun c4ast tbl0 (Val.obj [("a", Val.null)]) = .ok (.ok .undefined, []) ∧
      compileRun c4ast tbl0 (Val.obj [("a", .obj [("b", Val.null)])]) =
        .ok (.ok .undefined, [])) :=
  ⟨Or.inl rfl, c4_member_chain Val.null tbl0 (Or.inl rfl)⟩

/-- C5: for every identifier name, the compiled single-identifier program
returns `undefined` rather than faulting when called with a `null` or
`undefined` context, and returns the bound value when the context binds the
name (here to `5`). -/
theorem c5_identifier (name : String) (tbl : FnTable) :
    compileRun (AST.program [AST.ident name]) tbl .null = .ok (.ok .undefined, []) ∧
    compileRun (AST.program [AST.ident name]) tbl .undefined = .ok (.ok .undefined, []) ∧
    compileRun (AST.program [AST.ident name]) tbl (Val.obj [(name, .num 5)]) =
      .ok (.ok (.num 5), []) := by
  simp [compileRun, compile, recurse, recurseProgramBody, variableDeclaration,
    pushStmt, assign, if_, member_, progWF, wfStmts, wfS, wfE, runProg,
    execStmts, execStmt, evalExpr, getSlot, setSlot, List.lookup, getField,
    lookupLast, truthy_obj, truthy_null, truthy_undefined, nullish_obj, Except.map]

/-- C6, counterexample: the claim says string literal values with embedded
quote characters are escaped correctly and returned unchanged.  The source
renders string literals with no escaping, so the literal value `it's`
(containing a single quote) yields the malformed text `'it's'` and
compilation faults with a syntax error — no compiled unit exists to return
the value. -/
theorem c6_counterexample :
    strOkB badStr = false ∧
    compile (AST.program [AST.litStr badStr]) = .error .syntaxError := by
  refine ⟨by decide, ?_⟩
  simp [compile, recurse, recurseProgramBody, pushStmt, progWF, wfStmts, wfS, wfE]
  decide

/-- C6, amended: the compiled unit returns number, boolean and null literal
values unchanged under any context, and string literal values unchanged
provided the string contains no single quote, backslash or line terminator
(embedded double quotes are fine, since the literal is rendered in single
quotes); a string literal containing a single quote yields malformed
generated code and compilation faults. -/
theorem c6_literals (n : Int) (b : Bool) (s : String) (ctxv : Val) (tbl : FnTable)
    (h : strOkB s = true) :
    compileRun (AST.program [AST.litNum n]) tbl ctxv = .ok (.ok (.num n), []) ∧
    compileRun (AST.program [AST.litBool b]) tbl ctxv = .ok (.ok (.bool b), []) ∧
    compileRun (AST.program [AST.litNull]) tbl ctxv = .ok (.ok .null, []) ∧
    compileRun (AST.program [AST.litStr s]) tbl ctxv = .ok (.ok (.str s), []) ∧
    compile (AST.program [AST.litStr badStr]) = .error .syntaxError := by
  refine ⟨?_, ?_, ?_, ?_, c6_counterexample.2⟩ <;>
    simp [compileRun, compile, recurse, recurseProgramBody, pushStmt, progWF, wfStmts,
      wfS, wfE, runProg, execStmts, execStmt, evalExpr, Except.map, h]

/-- C6, witness: the literal theorem instantiated at `5`, `true`, and a
string containing embedded double quotes. -/
theorem c6_literals_witness :
    strOkB ("say " ++ dq ++ "hi" ++ dq) = true ∧
    (compileRun (AST.program [AST.litNum 5]) tbl0 Val.null = .ok (.ok (.num 5), []) ∧
      compileRun (AST.program [AST.litBool true]) tbl0 Val.null = .ok (.ok (.bool true), []) ∧
      compileRun (AST.program [AST.litNull]) tbl0 Val.null = .ok (.ok .null, []) ∧
      compileRun (AST.program [AST.litStr ("say " ++ dq ++ "hi" ++ dq)]) tbl0 Val.null =
        .ok (.ok (.str ("say " ++ dq ++ "hi" ++ dq)), []) ∧
      compile (AST.program [AST.litStr badStr]) = .error .syntaxError) :=
  ⟨by decide, c6_literals 5 true ("say " ++ dq ++ "hi" ++ dq) Val.null tbl0 (by decide)⟩

/-- C7, counterexample: the claim says a call whose callee resolves to `null`
or `undefined` produces `undefined`.  The generated call
`callee&&callee.call(ctx)` yields the falsy callee value itself, so with
context `f = null` the compiled `f()` produces `null`, not `undefined`. -/
theorem c7_counterexample :
    compileRun callFast tbl0 (Val.obj [("f", .null)]) = .ok (.ok .null, []) ∧
    Val.null ≠ Val.undefined := by
  refine ⟨?_, by simp⟩
  simp [compileRun, compile, callFast, recurse, recurseProgramBody, recurseArgs,
    variableDeclaration, pushStmt, assign, if_, member_, progWF, wfStmts, wfS, wfE,
    wfEs, runProg, execStmts, execStmt, evalExpr, evalList, getSlot, setSlot, List.lookup,
    getField, lookupLast, truthy_obj, truthy_null, nullish_obj, ensureSafeFn,
    isFunctionV, isFnCtor, Except.map]

/-- C7, amended: a call through a `null` or `undefined` callee does not fault
and the call does not execute (the trace is empty); the call expression
yields the falsy callee value itself — `undefined` when the callee is
`undefined` (an absent property), `null` when the callee is `null`. -/
theorem c7_falsy_callee (tbl : FnTable) :
    compileRun callFast tbl (Val.obj [("f", .null)]) = .ok (.ok .null, []) ∧
    compileRun callFast tbl (Val.obj []) = .ok (.ok .undefined, []) ∧
    compileRun callFast tbl (Val.obj [("f", .undefined)]) = .ok (.ok .undefined, []) := by
  simp [compileRun, compile, callFast, recurse, recurseProgramBody, recurseArgs,
    variableDeclaration, pushStmt, assign, if_, member_, progWF, wfStmts, wfS, wfE,
    wfEs, runProg, execStmts, execStmt, evalExpr, evalList, getSlot, setSlot, List.lookup,
    getField, lookupLast, truthy_obj, truthy_null, truthy_undefined, nullish_obj,
    ensureSafeFn, isFunctionV, isFnCtor, Except.map]

/-- C8, counterexample: the claim says an unrecognized node kind is fatal and
aborts compilation.  The source's `switch` has no `default` case, so
compiling a program whose sole node has an unrecognized kind succeeds
silently and the resulting unit evaluates to `undefined`. -/
theorem c8_counterexample :
    compileRun c8ast tbl0 Val.null = .ok (.ok .undefined, []) := by
  simp [compileRun, compile, c8ast, recurse, recurseProgramBody, pushStmt, progWF,
    wfStmts, wfS, wfE, runProg, execStmts, execStmt, evalExpr, Except.map]

/-- C8, amended: an AST node of unrecognized kind is not detected: `recurse`
falls through the `switch` (which has no `default`), yields `undefined` into
the generated text, and `compile` silently produces a compiled unit in which
the unknown node evaluates as `undefined` under every context. -/
theorem c8_unknown_silent (ctxv : Val) (tbl : FnTable) :
    compileRun c8ast tbl ctxv = .ok (.ok .undefined, []) := by
  simp [compileRun, compile, c8ast, recurse, recurseProgramBody, pushStmt, progWF,
    wfStmts, wfS, wfE, runProg, execStmts, execStmt, evalExpr, Except.map]

/-- C9: the `ensureSafeFn` guard invocation and the callee-resolution
statements of a call inside a short-circuited position execute on every
evaluation of the compiled unit: with the right operand of `a && f()` skipped
(falsy left) or the alternate of `a ? 1 : f()` unselected (truthy test), a
callee bound to the `Function` constructor still raises the
forbidden-call-target fault, proving the skipped position's guard and callee
resolution ran. -/
theorem c9_guard_always_runs (av : Val) (tbl : FnTable) :
    (truthy av = false →
      compileRun c1ast tbl (Val.obj [("a", av), ("f", .fnCtor)]) =
        .ok (.error .safeFnError, [])) ∧
    (truthy av = true →
      compileRun c2ast tbl (Val.obj [("a", av), ("f", .fnCtor)]) =
        .ok (.error .safeFnError, [])) := by
  refine ⟨fun h => ?_, fun h => ?_⟩ <;>
    simp [compileRun, compile, c1ast, c2ast, recurse, recurseProgramBody, recurseArgs,
      variableDeclaration, pushStmt, assign, if_, not_, member_, progWF, wfStmts, wfS, wfE,
      wfEs, runProg, execStmts, execStmt, evalExpr, evalList, getSlot, setSlot, List.lookup,
      getField, lookupLast, truthy_obj, truthy_fnCtor, nullish_obj, ensureSafeFn,
      isFunctionV_fnCtor, isFnCtor_fnCtor, Except.map, h]

/-- C9, witness: the guard-always-runs theorem instantiated at a falsy and at
a truthy test value. -/
theorem c9_guard_always_runs_witness :
    truthy (Val.bool false) = false ∧ truthy (Val.bool true) = true ∧
    compileRun c1ast tbl0 (Val.obj [("a", Val.bool false), ("f", Val.fnCtor)]) =
      .ok (.error .safeFnError, []) ∧
    compileRun c2ast tbl0 (Val.obj [("a", Val.bool true), ("f", Val.fnCtor)]) =
      .ok (.error .safeFnError, []) :=
  ⟨by decide, by decide,
    (c9_guard_always_runs (Val.bool false) tbl0).1 (by decide),
    (c9_guard_always_runs (Val.bool true) tbl0).2 (by decide)⟩

/-- C10: the member-access guard tests truthiness, not only non-nullness: for
every falsy object value — `0`, the empty string, `false`, `NaN`, as well as
`null`/`undefined` — the guarded access leaves the result slot unassigned and
`a.b` yields `undefined`.  In particular `a.length` with `a = ''` yields
`undefined` even though the empty string has an actual `length` property
(value `0` in the model's `getField`). -/
theorem c10_falsy_object_guard (v : Val) (tbl : FnTable) (h : truthy v = false) :
    compileRun abAst tbl (Val.obj [("a", v)]) = .ok (.ok .undefined, []) ∧
    compileRun alenAst tbl (Val.obj [("a", .str "")]) = .ok (.ok .undefined, []) ∧
    getField (.str "") "length" = .num 0 := by
  refine ⟨?_, ?_, rfl⟩ <;>
    simp [compileRun, compile, abAst, alenAst, recurse, recurseProgramBody,
      variableDeclaration, pushStmt, assign, if_, member_, nodeName, progWF, wfStmts, wfS, wfE,
      runProg, execStmts, execStmt, evalExpr, getSlot, setSlot, List.lookup, getField,
      lookupLast, truthy_obj, truthy_str, nullish_obj, Except.map, h]

/-- C10, witness: the falsy-object theorem instantiated at the empty
string. -/
theorem c10_falsy_object_guard_witness :
    truthy (Val.str "") = false ∧
    (compileRun abAst tbl0 (Val.obj [("a", Val.str "")]) = .ok (.ok .undefined, []) ∧
      compileRun alenAst tbl0 (Val.obj [("a", .str "")]) = .ok (.ok .undefined, []) ∧
      getField (.str "") "length" = .num 0) :=
  ⟨by decide, c10_falsy_object_guard (Val.str "") tbl0 (by decide)⟩

end EF
